import Mathlib

/-!
Shallow embedding of the luigi RPC client (`luigi/rpc.py`) and of the task
identity contract pinned down by `test/parameter_test.py`, together with
theorems settling the specification claims about them.

The embedding models Python exceptions as an explicit error type threaded
through `Except`, the retry loop of `RemoteScheduler._fetch` as a
structurally recursive function on the number of remaining iterations
(`while attempt < attempts` with `attempt` incremented once per iteration
runs exactly `attempts - attempt` iterations unless it breaks or raises),
and observable side effects (sleeps between attempts, fetch invocations
with their url/body/timeout arguments) as an explicit event trace.
-/

/-- Python runtime values, as far as truthiness of the argument of an
`assert` statement is concerned (`RemoteScheduler.__init__` asserts a
parenthesized two-element tuple `(condition, message)`). -/
inductive PyVal where
  | bool (b : Bool)
  | str (s : String)
  | tuple (xs : List PyVal)
  deriving Repr

/-- Python truthiness: a bool is itself, a string is truthy iff non-empty,
a tuple is truthy iff non-empty.  `assert e` succeeds iff `e` is truthy. -/
def PyVal.truthy : PyVal → Bool
  | .bool b => b
  | .str s => !s.isEmpty
  | .tuple xs => !xs.isEmpty

/-- Models Python `s.startswith(pre)`. -/
def startswith (s pre : String) : Bool :=
  pre.data.isPrefixOf s.data

/-- The argument of the `assert` statement in `RemoteScheduler.__init__`
(rpc.py lines 94-97): a two-element tuple holding the intended condition
`not (url.startswith('http+unix://') and not HAS_UNIX_SOCKETS)` and the
message string, exactly as the source parenthesizes it. -/
def initAssertArg (url : String) (hasUnixSockets : Bool) : PyVal :=
  .tuple
    [ .bool (!(startswith url "http+unix://" && !hasUnixSockets)),
      .str "You need to install requests-unixsocket for Unix socket support." ]

/-- The condition the `assert` in `RemoteScheduler.__init__` was intended
to check (the first component of the tuple it actually asserts). -/
def initIntendedCond (url : String) (hasUnixSockets : Bool) : Bool :=
  !(startswith url "http+unix://" && !hasUnixSockets)

/-- Python exceptions relevant to rpc.py: the transport-level exception
types caught at the fetch boundary (`urllib`'s `URLError`,
`socket.timeout`, requests' `RequestException`), the wrapper
`FetcherException` (carrying `original_exc`), the coordination-layer
`RPCError` (carrying the attempt count and scheduler url that make up its
message, and `sub_exception`), the decoding errors `json.loads` /
subscripting can raise, and a catch-all for anything else. -/
inductive PyExc where
  | URLError (msg : String)
  | socketTimeout (msg : String)
  | RequestException (msg : String)
  | FetcherException (original_exc : PyExc)
  | RPCError (attempts : Nat) (url : String) (sub_exception : Option PyExc)
  | ValueError (msg : String)
  | KeyError (key : String)
  | TypeError (msg : String)
  | otherError (msg : String)
  deriving Repr

/-- Whether an exception is the transport-failure wrapper
`FetcherException` (the only exception class the retry loop catches). -/
def PyExc.isFetcherException : PyExc → Bool
  | .FetcherException _ => true
  | _ => false

/-- Whether an exception is one of the transport-specific types
(`URLError`, `socket.timeout`, requests' `RequestException`). -/
def PyExc.isTransportExc : PyExc → Bool
  | .URLError _ => true
  | .socketTimeout _ => true
  | .RequestException _ => true
  | _ => false

/-- Whether an exception is the coordination-layer `RPCError`. -/
def PyExc.isRPCError : PyExc → Bool
  | .RPCError _ _ _ => true
  | _ => false

/-- Models `URLLibFetcher.fetch` (rpc.py lines 65-71): the underlying
`urlopen(...).read().decode(...)` outcome is `raw`; `URLError` and
`socket.timeout` are caught and re-raised wrapped in `FetcherException`;
any other exception propagates unchanged. -/
def URLLibFetcher.fetch (raw : Except PyExc String) : Except PyExc String :=
  match raw with
  | .ok s => .ok s
  | .error e =>
    match e with
    | .URLError m => .error (.FetcherException (.URLError m))
    | .socketTimeout m => .error (.FetcherException (.socketTimeout m))
    | e => .error e

/-- Models `RequestsFetcher.fetch` (rpc.py lines 78-85): the underlying
`session.get(...).raise_for_status()/.text` outcome is `raw`; any
`requests.exceptions.RequestException` is caught and re-raised wrapped in
`FetcherException`; any other exception propagates unchanged. -/
def RequestsFetcher.fetch (raw : Except PyExc String) : Except PyExc String :=
  match raw with
  | .ok s => .ok s
  | .error e =>
    match e with
    | .RequestException m => .error (.FetcherException (.RequestException m))
    | e => .error e

/-- Models Python `url.rstrip('/')`: remove every trailing `'/'`. -/
def rstripSlashes (s : String) : String :=
  ⟨(s.data.reverse.dropWhile (fun c => c = '/')).reverse⟩

/-- Splits a char list at the first occurrence of `"://"`, returning the
part before it and the part after it. -/
def splitScheme : List Char → Option (List Char × List Char)
  | [] => none
  | ':' :: '/' :: '/' :: rest => some ([], rest)
  | c :: rest =>
    match splitScheme rest with
    | some (pre, post) => some (c :: pre, post)
    | none => none

/-- Drops the final path segment (everything after the last `'/'`,
keeping that `'/'`); a path with no `'/'` at all becomes empty. -/
def dropLastSegment (path : List Char) : List Char :=
  (path.reverse.dropWhile (fun c => c ≠ '/')).reverse

/-- Models `urllib.parse.urljoin(base, url)` for the reference shapes the
client produces (rpc.py line 115 joins the stored base url with suffixes
such as `'/api/ping'`): an absolute reference (containing `"://"`)
replaces the base; an absolute-path reference (leading `'/'`) keeps the
base's scheme and network location; an empty reference returns the base;
a relative path replaces the base's final path segment. -/
def urljoin (base url : String) : String :=
  match splitScheme url.data with
  | some _ => url
  | none =>
    match url.data with
    | [] => base
    | '/' :: _ =>
      match splitScheme base.data with
      | some (scheme, rest) =>
        ⟨scheme ++ (':' :: '/' :: '/' :: rest.takeWhile (fun c => c ≠ '/')) ++ url.data⟩
      | none => url
    | _ =>
      match splitScheme base.data with
      | some (scheme, rest) =>
        let netloc := rest.takeWhile (fun c => c ≠ '/')
        let path := rest.drop netloc.length
        ⟨scheme ++ (':' :: '/' :: '/' :: netloc) ++ dropLastSegment path ++ url.data⟩
      | none => url

/-- JSON values, modelling what Python's `json.dumps` / `json.loads`
produce and consume in rpc.py (`json.dumps(data)` on line 140,
`json.loads(page)` on line 143); numbers are restricted to integers,
which covers every value rpc.py serializes. -/
inductive JVal where
  | null
  | bool (b : Bool)
  | num (n : Int)
  | str (s : String)
  | arr (xs : List JVal)
  | obj (kvs : List (String × JVal))

/-- The opening brace character. -/
def obrace : Char := Char.ofNat 123

/-- The closing brace character. -/
def cbrace : Char := Char.ofNat 125

/-- JSON string escaping for the two characters that must be escaped in
every JSON encoder (backslash and double quote); rpc.py never serializes
control characters, so this is the relevant fragment of `json.dumps`'s
string encoder. -/
def escapeChar (c : Char) : List Char :=
  if c = '"' then ['\\', '"']
  else if c = '\\' then ['\\', '\\']
  else [c]

/-- Escapes every character of a string for JSON output. -/
def escapeStr (s : String) : List Char :=
  s.data.flatMap escapeChar

mutual

/-- Models Python `json.dumps` with its default separators
`(', ', ': ')`. -/
def json.dumps : JVal → String
  | .null => "null"
  | .bool true => "true"
  | .bool false => "false"
  | .num n => toString n
  | .str s => ⟨'"' :: escapeStr s ++ ['"']⟩
  | .arr xs => "[" ++ json.dumpsElems xs ++ "]"
  | .obj kvs => ⟨[obrace]⟩ ++ json.dumpsMembers kvs ++ ⟨[cbrace]⟩

/-- Serializes the comma-separated element list of a JSON array. -/
def json.dumpsElems : List JVal → String
  | [] => ""
  | [x] => json.dumps x
  | x :: y :: xs => json.dumps x ++ ", " ++ json.dumpsElems (y :: xs)

/-- Serializes the comma-separated member list of a JSON object. -/
def json.dumpsMembers : List (String × JVal) → String
  | [] => ""
  | [(k, v)] => json.dumps (.str k) ++ ": " ++ json.dumps v
  | (k, v) :: m :: kvs =>
    json.dumps (.str k) ++ ": " ++ json.dumps v ++ ", " ++ json.dumpsMembers (m :: kvs)

end

/-- JSON whitespace. -/
def isJsonWs (c : Char) : Bool :=
  c = ' ' ∨ c = '\t' ∨ c = '\n' ∨ c = '\r'

/-- Skips leading JSON whitespace. -/
def skipWs (cs : List Char) : List Char :=
  cs.dropWhile isJsonWs

/-- Parses the body of a JSON string (the opening quote already
consumed), handling the standard single-character escapes. -/
def parseStrBody : List Char → List Char → Option (String × List Char)
  | _, [] => none
  | acc, '"' :: rest => some (⟨acc.reverse⟩, rest)
  | acc, '\\' :: e :: rest =>
    if e = '"' then parseStrBody ('"' :: acc) rest
    else if e = '\\' then parseStrBody ('\\' :: acc) rest
    else if e = '/' then parseStrBody ('/' :: acc) rest
    else if e = 'n' then parseStrBody ('\n' :: acc) rest
    else if e = 't' then parseStrBody ('\t' :: acc) rest
    else if e = 'r' then parseStrBody ('\r' :: acc) rest
    else none
  | acc, c :: rest => parseStrBody (c :: acc) rest

/-- Parses a run of decimal digits into a natural number. -/
def parseDigits : Nat → List Char → Option (Nat × List Char)
  | acc, c :: rest =>
    if c.isDigit then parseDigits (acc * 10 + (c.toNat - '0'.toNat)) rest
    else some (acc, c :: rest)
  | acc, [] => some (acc, [])

/-- Whether the char list starts with a digit (a number must have at
least one digit). -/
def startsWithDigit : List Char → Bool
  | c :: _ => c.isDigit
  | [] => false

mutual

/-- Recursive-descent JSON value parser; `fuel` strictly decreases on
every recursive call, and `json.loads` supplies enough fuel for any
input it is given. -/
def parseVal (fuel : Nat) (cs : List Char) : Option (JVal × List Char) :=
  match fuel with
  | 0 => none
  | fuel + 1 =>
    match skipWs cs with
    | 'n' :: 'u' :: 'l' :: 'l' :: rest => some (.null, rest)
    | 't' :: 'r' :: 'u' :: 'e' :: rest => some (.bool true, rest)
    | 'f' :: 'a' :: 'l' :: 's' :: 'e' :: rest => some (.bool false, rest)
    | '"' :: rest =>
      match parseStrBody [] rest with
      | some (s, rest) => some (.str s, rest)
      | none => none
    | '[' :: rest =>
      (match skipWs rest with
       | ']' :: rest => some (.arr [], rest)
       | other => match parseElems fuel other with
                  | some (xs, rest) => some (.arr xs, rest)
                  | none => none)
    | '-' :: rest =>
      if startsWithDigit rest then
        match parseDigits 0 rest with
        | some (n, rest) => some (.num (-(n : Int)), rest)
        | none => none
      else none
    | c :: rest =>
      if c = obrace then
        (match skipWs rest with
         | d :: rest2 =>
           if d = cbrace then some (.obj [], rest2)
           else (match parseMembers fuel (d :: rest2) with
                 | some (kvs, rest) => some (.obj kvs, rest)
                 | none => none)
         | [] => none)
      else if c.isDigit then
        match parseDigits 0 (c :: rest) with
        | some (n, rest) => some (.num (n : Int), rest)
        | none => none
      else none
    | [] => none

/-- Parses a non-empty comma-separated JSON array element list up to and
including the closing bracket. -/
def parseElems (fuel : Nat) (cs : List Char) : Option (List JVal × List Char) :=
  match fuel with
  | 0 => none
  | fuel + 1 =>
    match parseVal fuel cs with
    | some (v, rest) =>
      (match skipWs rest with
       | ',' :: rest => match parseElems fuel rest with
                        | some (vs, rest) => some (v :: vs, rest)
                        | none => none
       | ']' :: rest => some ([v], rest)
       | _ => none)
    | none => none

/-- Parses a non-empty comma-separated JSON object member list up to and
including the closing brace. -/
def parseMembers (fuel : Nat) (cs : List Char) : Option (List (String × JVal) × List Char) :=
  match fuel with
  | 0 => none
  | fuel + 1 =>
    match skipWs cs with
    | '"' :: rest =>
      (match parseStrBody [] rest with
       | some (k, rest) =>
         (match skipWs rest with
          | ':' :: rest =>
            (match parseVal fuel rest with
             | some (v, rest) =>
               (match skipWs rest with
                | ',' :: rest => (match parseMembers fuel rest with
                                  | some (kvs, rest) => some ((k, v) :: kvs, rest)
                                  | none => none)
                | d :: rest2 =>
                  if d = cbrace then some ([(k, v)], rest2) else none
                | [] => none)
             | none => none)
          | _ => none)
       | none => none)
    | _ => none

end

/-- Models Python `json.loads`: parse the whole text as one JSON value,
raising `ValueError` when the text is not valid JSON. -/
def json.loads (s : String) : Except PyExc JVal :=
  match parseVal (s.length + 1) s.data with
  | some (v, rest) =>
    if (skipWs rest).isEmpty then .ok v
    else .error (.ValueError "Extra data")
  | none => .error (.ValueError "No JSON object could be decoded")

/-- Models Python `result["response"]` on the value returned by
`json.loads` (rpc.py line 144): subscripting a dict returns the value
under the key or raises `KeyError`; subscripting a non-dict raises
`TypeError`. -/
def json.subscript (j : JVal) (key : String) : Except PyExc JVal :=
  match j with
  | .obj kvs =>
    match kvs.lookup key with
    | some v => .ok v
    | none => .error (.KeyError key)
  | _ => .error (.TypeError "value is not subscriptable by string")

/-- Modelled from the spec: `configuration.get_config().getfloat(section,
name, default)` (the `luigi.configuration` module is not under src/) —
"a connect timeout configurable externally (default 10 seconds)": returns
the externally configured value when the configuration entry exists,
otherwise the supplied default.  Timeouts are modelled as rationals. -/
def configGetfloat (configured : Option ℚ) (default : ℚ) : ℚ :=
  configured.getD default

/-- The scheduler proxy state set up by `RemoteScheduler.__init__`
(rpc.py lines 93-109): the stored base url (`self._url`, the constructor
argument with trailing slashes stripped) and the connect timeout
(`self._connect_timeout`). -/
structure RemoteScheduler where
  _url : String
  _connect_timeout : ℚ

/-- Models `RemoteScheduler.__init__(url='http://localhost:8082/',
connect_timeout=None)`: stores `url.rstrip('/')`, and resolves the
connect timeout to the explicit argument when one is given, otherwise to
the configured `core.rpc-connect-timeout` value with default `10.0`. -/
def mkRemoteScheduler (url : String := "http://localhost:8082/")
    (connect_timeout : Option ℚ := none) (configured : Option ℚ := none) :
    RemoteScheduler :=
  { _url := rstripSlashes url,
    _connect_timeout :=
      match connect_timeout with
      | some t => t
      | none => configGetfloat configured 10 }

/-- One observable side effect of the retry loop: a `time.sleep` (with
its duration in seconds) or one invocation of `self._fetcher.fetch` with
the full url, request body and timeout it was passed. -/
inductive Event where
  | sleep (seconds : Nat)
  | fetchCall (fullUrl : String) (body : List (String × String)) (timeout : ℚ)

/-- Whether a trace event is a fetch invocation. -/
def Event.isFetch : Event → Bool
  | .fetchCall _ _ _ => true
  | _ => false

/-- Whether a trace event is a sleep. -/
def Event.isSleep : Event → Bool
  | .sleep _ => true
  | _ => false

/-- Number of fetch invocations recorded in a trace. -/
def numFetches (tr : List Event) : Nat :=
  tr.countP Event.isFetch

/-- Number of sleeps recorded in a trace. -/
def numSleeps (tr : List Event) : Nat :=
  tr.countP Event.isSleep

/-- The environment's transport behavior: what
`self._fetcher.fetch(full_url, body, timeout)` does on its n-th
invocation within one `_fetch` call (the last argument counts the
invocations already made, modelling that the network may answer each
attempt differently). -/
def Fetcher : Type :=
  String → List (String × String) → ℚ → Nat → Except PyExc String

/-- The body of the retry loop of `RemoteScheduler._fetch` (rpc.py lines
116-136).  `remaining` is `attempts - attempt`, the number of loop
iterations still to run (`while attempt < attempts` with `attempt`
incremented once per iteration); `idx` counts the fetch invocations made
so far; `lastExc` is the `last_exception` variable.  Each iteration
first sleeps via `self._wait()` (a fixed `time.sleep(30)`) when
`last_exception` is set, then invokes the fetcher: a success breaks out
of the loop with the response; a `FetcherException` records its
`original_exc` and continues; any other exception propagates; when the
iterations are exhausted the `while`'s `else` clause raises
`RPCError(message(attempts, self._url), last_exception)`. -/
def fetchLoop (fetchFn : Fetcher) (surl fullUrl : String)
    (body : List (String × String)) (timeout : ℚ) (attempts : Nat) :
    Nat → Nat → Option PyExc → List Event × Except PyExc String
  | 0, _, lastExc => ([], .error (.RPCError attempts surl lastExc))
  | remaining + 1, idx, lastExc =>
    let pre : List Event :=
      match lastExc with
      | some _ => [.sleep 30]
      | none => []
    match fetchFn fullUrl body timeout idx with
    | .ok response => (pre ++ [.fetchCall fullUrl body timeout], .ok response)
    | .error e =>
      match e with
      | .FetcherException orig =>
        let r := fetchLoop fetchFn surl fullUrl body timeout attempts remaining (idx + 1) (some orig)
        (pre ++ .fetchCall fullUrl body timeout :: r.1, r.2)
      | e => (pre ++ [.fetchCall fullUrl body timeout], .error e)

/-- Models `RemoteScheduler._fetch(url_suffix, body, log_exceptions=True,
attempts=3)` (rpc.py lines 114-137), returning the trace of observable
side effects together with the returned response or raised exception.
`log_exceptions` only controls logging, which the trace does not record.
-/
def RemoteScheduler._fetch (s : RemoteScheduler) (url_suffix : String)
    (body : List (String × String)) (fetchFn : Fetcher)
    (_log_exceptions : Bool := true) (attempts : Nat := 3) :
    List Event × Except PyExc String :=
  fetchLoop fetchFn s._url (urljoin s._url url_suffix) body s._connect_timeout
    attempts attempts 0 none

/-- Models `RemoteScheduler._request(url, data, log_exceptions=True,
attempts=3)` (rpc.py lines 139-144): build the request body
`{'data': json.dumps(data)}`, fetch the page through the retry envelope,
then `json.loads(page)["response"]`. -/
def RemoteScheduler._request (s : RemoteScheduler) (url : String)
    (data : JVal) (fetchFn : Fetcher) (log_exceptions : Bool := true)
    (attempts : Nat := 3) : List Event × Except PyExc JVal :=
  let body := [("data", json.dumps data)]
  let r := s._fetch url body fetchFn log_exceptions attempts
  match r.2 with
  | .error e => (r.1, .error e)
  | .ok page =>
    match json.loads page with
    | .error e => (r.1, .error e)
    | .ok result => (r.1, json.subscript result "response")

/-- Models `RemoteScheduler.ping(worker)` (rpc.py lines 146-148): a
single-attempt `_request` whose result is discarded — the method body
has no `return` statement, so a successful call returns Python `None`,
modelled as `JVal.null`. -/
def RemoteScheduler.ping (s : RemoteScheduler) (worker : String)
    (fetchFn : Fetcher) : List Event × Except PyExc JVal :=
  let r := s._request "/api/ping" (.obj [("worker", .str worker)]) fetchFn true 1
  (r.1, r.2.map fun _ => JVal.null)

/-- Models `RemoteScheduler.get_work(worker, host=None, assistant=False)`
(rpc.py lines 169-174): a single-attempt, non-logging `_request` whose
unwrapped response is returned. -/
def RemoteScheduler.get_work (s : RemoteScheduler) (worker : String)
    (fetchFn : Fetcher) (host : Option String := none)
    (assistant : Bool := false) : List Event × Except PyExc JVal :=
  s._request "/api/get_work"
    (.obj [("worker", .str worker),
           ("host", match host with | some h => .str h | none => .null),
           ("assistant", .bool assistant)])
    fetchFn false 1

/-- Unfolds the exhausted loop: with no iterations remaining the
`while`'s `else` clause raises `RPCError` carrying `last_exception`. -/
theorem fetchLoop_zero (fetchFn : Fetcher) (surl u : String)
    (b : List (String × String)) (t : ℚ) (attempts idx : Nat)
    (lastExc : Option PyExc) :
    fetchLoop fetchFn surl u b t attempts 0 idx lastExc =
      ([], .error (.RPCError attempts surl lastExc)) := rfl

/-- Unfolds one iteration of the loop entered with `last_exception` set:
the fixed 30 second wait happens, then the fetch attempt decides. -/
theorem fetchLoop_succ_some (fetchFn : Fetcher) (surl u : String)
    (b : List (String × String)) (t : ℚ) (attempts remaining idx : Nat)
    (e0 : PyExc) :
    fetchLoop fetchFn surl u b t attempts (remaining + 1) idx (some e0) =
      match fetchFn u b t idx with
      | .ok response => ([Event.sleep 30, Event.fetchCall u b t], .ok response)
      | .error e =>
        match e with
        | .FetcherException orig =>
          (Event.sleep 30 :: Event.fetchCall u b t ::
             (fetchLoop fetchFn surl u b t attempts remaining (idx + 1) (some orig)).1,
           (fetchLoop fetchFn surl u b t attempts remaining (idx + 1) (some orig)).2)
        | e => ([Event.sleep 30, Event.fetchCall u b t], .error e) := rfl

/-- Unfolds one iteration of the loop entered without a pending
exception: no wait happens, the fetch attempt decides immediately. -/
theorem fetchLoop_succ_none (fetchFn : Fetcher) (surl u : String)
    (b : List (String × String)) (t : ℚ) (attempts remaining idx : Nat) :
    fetchLoop fetchFn surl u b t attempts (remaining + 1) idx none =
      match fetchFn u b t idx with
      | .ok response => ([Event.fetchCall u b t], .ok response)
      | .error e =>
        match e with
        | .FetcherException orig =>
          (Event.fetchCall u b t ::
             (fetchLoop fetchFn surl u b t attempts remaining (idx + 1) (some orig)).1,
           (fetchLoop fetchFn surl u b t attempts remaining (idx + 1) (some orig)).2)
        | e => ([Event.fetchCall u b t], .error e) := rfl

/-- When every attempt the loop will make fails with a
`FetcherException`, a loop entered with `last_exception` set runs all its
remaining iterations, each preceded by the fixed 30 second sleep, and
raises `RPCError` carrying the original exception of the last attempt. -/
theorem fetchLoop_allFail_some (fetchFn : Fetcher) (surl u : String)
    (b : List (String × String)) (t : ℚ) (attempts : Nat)
    (efn : Nat → PyExc) :
    ∀ r idx e0,
      (∀ n, idx ≤ n → n < idx + (r + 1) →
        fetchFn u b t n = .error (.FetcherException (efn n))) →
      fetchLoop fetchFn surl u b t attempts (r + 1) idx (some e0) =
        ((List.replicate (r + 1) [Event.sleep 30, Event.fetchCall u b t]).flatten,
         .error (.RPCError attempts surl (some (efn (idx + r))))) := by
  intro r
  induction r with
  | zero =>
    intro idx e0 h
    have hidx := h idx (Nat.le_refl idx) (by omega)
    rw [fetchLoop_succ_some, hidx]
    simp [fetchLoop_zero]
  | succ r ih =>
    intro idx e0 h
    have hidx := h idx (Nat.le_refl idx) (by omega)
    have hrec := ih (idx + 1) (efn idx)
      (fun n hn1 hn2 => h n (by omega) (by omega))
    rw [fetchLoop_succ_some, hidx]
    have harith : idx + 1 + r = idx + (r + 1) := by omega
    simp [hrec, harith, List.replicate_succ]

/-- When every attempt the loop will make fails with a
`FetcherException`, a freshly entered loop (no `last_exception` yet)
fetches first without waiting, then alternates the fixed sleep with the
remaining attempts, and raises `RPCError` carrying the original
exception of the last attempt. -/
theorem fetchLoop_allFail_none (fetchFn : Fetcher) (surl u : String)
    (b : List (String × String)) (t : ℚ) (attempts : Nat)
    (efn : Nat → PyExc) :
    ∀ r idx,
      (∀ n, idx ≤ n → n < idx + (r + 1) →
        fetchFn u b t n = .error (.FetcherException (efn n))) →
      fetchLoop fetchFn surl u b t attempts (r + 1) idx none =
        (Event.fetchCall u b t ::
           (List.replicate r [Event.sleep 30, Event.fetchCall u b t]).flatten,
         .error (.RPCError attempts surl (some (efn (idx + r))))) := by
  intro r idx h
  have hidx := h idx (Nat.le_refl idx) (by omega)
  match r with
  | 0 =>
    rw [fetchLoop_succ_none, hidx]
    simp [fetchLoop_zero]
  | r' + 1 =>
    have hrec := fetchLoop_allFail_some fetchFn surl u b t attempts efn r' (idx + 1)
      (efn idx) (fun n hn1 hn2 => h n (by omega) (by omega))
    rw [fetchLoop_succ_none, hidx]
    have harith : idx + 1 + r' = idx + (r' + 1) := by omega
    simp [hrec, harith]

/-- When the first `k` attempts fail with `FetcherException` and attempt
`k` succeeds (with iterations to spare), a loop entered with
`last_exception` set returns the response after exactly `k + 1` further
fetches, each preceded by the fixed sleep. -/
theorem fetchLoop_success_some (fetchFn : Fetcher) (surl u : String)
    (b : List (String × String)) (t : ℚ) (attempts : Nat)
    (efn : Nat → PyExc) :
    ∀ k r idx e0 page,
      (∀ n, idx ≤ n → n < idx + k →
        fetchFn u b t n = .error (.FetcherException (efn n))) →
      fetchFn u b t (idx + k) = .ok page →
      k ≤ r →
      fetchLoop fetchFn surl u b t attempts (r + 1) idx (some e0) =
        ((List.replicate (k + 1) [Event.sleep 30, Event.fetchCall u b t]).flatten,
         .ok page) := by
  intro k
  induction k with
  | zero =>
    intro r idx e0 page _ hok _
    simp only [Nat.add_zero] at hok
    rw [fetchLoop_succ_some, hok]
    simp
  | succ k ih =>
    intro r idx e0 page h hok hkr
    match r with
    | 0 => omega
    | r' + 1 =>
      have hidx := h idx (Nat.le_refl idx) (by omega)
      have hrec := ih r' (idx + 1) (efn idx) page
        (fun n hn1 hn2 => h n (by omega) (by omega))
        (by have harith : idx + 1 + k = idx + (k + 1) := by omega
            rw [harith]; exact hok)
        (by omega)
      rw [fetchLoop_succ_some, hidx]
      simp [hrec, List.replicate_succ]

/-- When the first `k` attempts fail with `FetcherException` and attempt
`k` succeeds (with iterations to spare), a freshly entered loop returns
the response after exactly `k + 1` fetches, with no wait before the
first one. -/
theorem fetchLoop_success_none (fetchFn : Fetcher) (surl u : String)
    (b : List (String × String)) (t : ℚ) (attempts : Nat)
    (efn : Nat → PyExc) :
    ∀ k r idx page,
      (∀ n, idx ≤ n → n < idx + k →
        fetchFn u b t n = .error (.FetcherException (efn n))) →
      fetchFn u b t (idx + k) = .ok page →
      k ≤ r →
      fetchLoop fetchFn surl u b t attempts (r + 1) idx none =
        (Event.fetchCall u b t ::
           (List.replicate k [Event.sleep 30, Event.fetchCall u b t]).flatten,
         .ok page) := by
  intro k r idx page h hok hkr
  match k with
  | 0 =>
    simp only [Nat.add_zero] at hok
    rw [fetchLoop_succ_none, hok]
    simp
  | k' + 1 =>
    match r with
    | 0 => omega
    | r' + 1 =>
      have hidx := h idx (Nat.le_refl idx) (by omega)
      have hrec := fetchLoop_success_some fetchFn surl u b t attempts efn k' r'
        (idx + 1) (efn idx) page
        (fun n hn1 hn2 => h n (by omega) (by omega))
        (by have harith : idx + 1 + k' = idx + (k' + 1) := by omega
            rw [harith]; exact hok)
        (by omega)
      rw [fetchLoop_succ_none, hidx]
      simp [hrec]

/-- When the first `k` attempts fail with `FetcherException` and attempt
`k` raises an exception that is not a `FetcherException`, a loop entered
with `last_exception` set propagates that exception immediately after
`k + 1` further fetches: no retry and no `RPCError` wrapping. -/
theorem fetchLoop_break_some (fetchFn : Fetcher) (surl u : String)
    (b : List (String × String)) (t : ℚ) (attempts : Nat)
    (efn : Nat → PyExc) :
    ∀ k r idx e0 e,
      (∀ n, idx ≤ n → n < idx + k →
        fetchFn u b t n = .error (.FetcherException (efn n))) →
      fetchFn u b t (idx + k) = .error e →
      e.isFetcherException = false →
      k ≤ r →
      fetchLoop fetchFn surl u b t attempts (r + 1) idx (some e0) =
        ((List.replicate (k + 1) [Event.sleep 30, Event.fetchCall u b t]).flatten,
         .error e) := by
  intro k
  induction k with
  | zero =>
    intro r idx e0 e _ herr hnf _
    simp only [Nat.add_zero] at herr
    rw [fetchLoop_succ_some, herr]
    cases e <;> simp_all [PyExc.isFetcherException]
  | succ k ih =>
    intro r idx e0 e h herr hnf hkr
    match r with
    | 0 => omega
    | r' + 1 =>
      have hidx := h idx (Nat.le_refl idx) (by omega)
      have hrec := ih r' (idx + 1) (efn idx) e
        (fun n hn1 hn2 => h n (by omega) (by omega))
        (by have harith : idx + 1 + k = idx + (k + 1) := by omega
            rw [harith]; exact herr)
        hnf
        (by omega)
      rw [fetchLoop_succ_some, hidx]
      simp [hrec, List.replicate_succ]

/-- When the first `k` attempts fail with `FetcherException` and attempt
`k` raises an exception that is not a `FetcherException`, a freshly
entered loop propagates that exception immediately after `k + 1`
fetches. -/
theorem fetchLoop_break_none (fetchFn : Fetcher) (surl u : String)
    (b : List (String × String)) (t : ℚ) (attempts : Nat)
    (efn : Nat → PyExc) :
    ∀ k r idx e,
      (∀ n, idx ≤ n → n < idx + k →
        fetchFn u b t n = .error (.FetcherException (efn n))) →
      fetchFn u b t (idx + k) = .error e →
      e.isFetcherException = false →
      k ≤ r →
      fetchLoop fetchFn surl u b t attempts (r + 1) idx none =
        (Event.fetchCall u b t ::
           (List.replicate k [Event.sleep 30, Event.fetchCall u b t]).flatten,
         .error e) := by
  intro k r idx e h herr hnf hkr
  match k with
  | 0 =>
    simp only [Nat.add_zero] at herr
    rw [fetchLoop_succ_none, herr]
    cases e <;> simp_all [PyExc.isFetcherException]
  | k' + 1 =>
    match r with
    | 0 => omega
    | r' + 1 =>
      have hidx := h idx (Nat.le_refl idx) (by omega)
      have hrec := fetchLoop_break_some fetchFn surl u b t attempts efn k' r'
        (idx + 1) (efn idx) e
        (fun n hn1 hn2 => h n (by omega) (by omega))
        (by have harith : idx + 1 + k' = idx + (k' + 1) := by omega
            rw [harith]; exact herr)
        hnf
        (by omega)
      rw [fetchLoop_succ_none, hidx]
      simp [hrec]

/-- Loop invariant: whatever the transport does, every event the loop
records is either the fixed 30 second sleep or a fetch invocation with
exactly the full url, body and timeout the loop was given. -/
theorem fetchLoop_events (fetchFn : Fetcher) (surl u : String)
    (b : List (String × String)) (t : ℚ) (attempts : Nat) :
    ∀ remaining idx lastExc ev,
      ev ∈ (fetchLoop fetchFn surl u b t attempts remaining idx lastExc).1 →
      ev = .sleep 30 ∨ ev = .fetchCall u b t := by
  intro remaining
  induction remaining with
  | zero => intro idx lastExc ev hev; simp [fetchLoop_zero] at hev
  | succ r ih =>
    intro idx lastExc ev hev
    match lastExc with
    | some e0 =>
      rw [fetchLoop_succ_some] at hev
      rcases hfe : fetchFn u b t idx with e | page
      · rw [hfe] at hev
        cases e
        case FetcherException orig =>
          simp only [List.mem_cons] at hev
          rcases hev with h | h | h
          · exact Or.inl h
          · exact Or.inr h
          · exact ih (idx + 1) (some orig) ev h
        all_goals simp at hev; tauto
      · rw [hfe] at hev
        simp at hev
        tauto
    | none =>
      rw [fetchLoop_succ_none] at hev
      rcases hfe : fetchFn u b t idx with e | page
      · rw [hfe] at hev
        cases e
        case FetcherException orig =>
          simp only [List.mem_cons] at hev
          rcases hev with h | h
          · exact Or.inr h
          · exact ih (idx + 1) (some orig) ev h
        all_goals simp at hev; tauto
      · rw [hfe] at hev
        simp at hev
        tauto

/-- Whatever the transport does, a loop entered fresh with at least one
iteration to run performs its first fetch invocation before any other
event: there is no wait before the first attempt. -/
theorem fetchLoop_head (fetchFn : Fetcher) (surl u : String)
    (b : List (String × String)) (t : ℚ) (attempts r idx : Nat) :
    ∃ tail,
      (fetchLoop fetchFn surl u b t attempts (r + 1) idx none).1 =
        Event.fetchCall u b t :: tail := by
  rw [fetchLoop_succ_none]
  rcases hfe : fetchFn u b t idx with e | page
  · cases e
    case FetcherException orig => exact ⟨_, rfl⟩
    all_goals exact ⟨[], rfl⟩
  · exact ⟨[], rfl⟩

/-- Counting fetch invocations in the sleep/fetch alternation
produced by a failing run. -/
theorem numFetches_cycle (u : String) (b : List (String × String))
    (t : ℚ) (n : Nat) :
    numFetches ((List.replicate n [Event.sleep 30, Event.fetchCall u b t]).flatten) = n := by
  induction n with
  | zero => rfl
  | succ n ih =>
    simp only [List.replicate_succ, List.flatten_cons, numFetches] at *
    simp [List.countP_cons, Event.isFetch, ih]

/-- Counting sleeps in the sleep/fetch alternation produced by a
failing run. -/
theorem numSleeps_cycle (u : String) (b : List (String × String))
    (t : ℚ) (n : Nat) :
    numSleeps ((List.replicate n [Event.sleep 30, Event.fetchCall u b t]).flatten) = n := by
  induction n with
  | zero => rfl
  | succ n ih =>
    simp only [List.replicate_succ, List.flatten_cons, numSleeps] at *
    simp [List.countP_cons, Event.isSleep, ih]

/-- `_fetch` against a transport failing every attempt: one fetch, then
`attempts - 1` rounds of the fixed sleep followed by a fetch, then
`RPCError` carrying the last attempt's original exception. -/
theorem fetch_allFail (s : RemoteScheduler) (suffix : String)
    (body : List (String × String)) (fetchFn : Fetcher) (le : Bool)
    (a : Nat) (efn : Nat → PyExc)
    (h : ∀ n, n < a + 1 →
      fetchFn (urljoin s._url suffix) body s._connect_timeout n =
        .error (.FetcherException (efn n))) :
    s._fetch suffix body fetchFn le (a + 1) =
      (Event.fetchCall (urljoin s._url suffix) body s._connect_timeout ::
         (List.replicate a
            [Event.sleep 30,
             Event.fetchCall (urljoin s._url suffix) body s._connect_timeout]).flatten,
       .error (.RPCError (a + 1) s._url (some (efn a)))) := by
  have hmain := fetchLoop_allFail_none fetchFn s._url (urljoin s._url suffix)
    body s._connect_timeout (a + 1) efn a 0
    (fun n hn1 hn2 => h n (by omega))
  simpa [RemoteScheduler._fetch] using hmain

/-- `_fetch` against a transport whose first `k` attempts fail and whose
attempt `k` succeeds within the budget: the response is returned after
exactly `k + 1` fetches. -/
theorem fetch_success (s : RemoteScheduler) (suffix : String)
    (body : List (String × String)) (fetchFn : Fetcher) (le : Bool)
    (a k : Nat) (page : String) (efn : Nat → PyExc)
    (h : ∀ n, n < k →
      fetchFn (urljoin s._url suffix) body s._connect_timeout n =
        .error (.FetcherException (efn n)))
    (hok : fetchFn (urljoin s._url suffix) body s._connect_timeout k = .ok page)
    (hk : k ≤ a) :
    s._fetch suffix body fetchFn le (a + 1) =
      (Event.fetchCall (urljoin s._url suffix) body s._connect_timeout ::
         (List.replicate k
            [Event.sleep 30,
             Event.fetchCall (urljoin s._url suffix) body s._connect_timeout]).flatten,
       .ok page) := by
  have hmain := fetchLoop_success_none fetchFn s._url (urljoin s._url suffix)
    body s._connect_timeout (a + 1) efn k a 0 page
    (fun n hn1 hn2 => h n (by omega))
    (by simpa using hok) hk
  simpa [RemoteScheduler._fetch] using hmain

/-- `_fetch` against a transport whose first `k` attempts fail with
`FetcherException` and whose attempt `k` raises anything else: the
exception propagates immediately after exactly `k + 1` fetches. -/
theorem fetch_break (s : RemoteScheduler) (suffix : String)
    (body : List (String × String)) (fetchFn : Fetcher) (le : Bool)
    (a k : Nat) (e : PyExc) (efn : Nat → PyExc)
    (h : ∀ n, n < k →
      fetchFn (urljoin s._url suffix) body s._connect_timeout n =
        .error (.FetcherException (efn n)))
    (herr : fetchFn (urljoin s._url suffix) body s._connect_timeout k = .error e)
    (hnf : e.isFetcherException = false)
    (hk : k ≤ a) :
    s._fetch suffix body fetchFn le (a + 1) =
      (Event.fetchCall (urljoin s._url suffix) body s._connect_timeout ::
         (List.replicate k
            [Event.sleep 30,
             Event.fetchCall (urljoin s._url suffix) body s._connect_timeout]).flatten,
       .error e) := by
  have hmain := fetchLoop_break_none fetchFn s._url (urljoin s._url suffix)
    body s._connect_timeout (a + 1) efn k a 0 e
    (fun n hn1 hn2 => h n (by omega))
    (by simpa using herr) hnf hk
  simpa [RemoteScheduler._fetch] using hmain

/-- Dropping leading copies of `'/'` before a `dropWhile` on `'/'` is a
no-op. -/
theorem dropWhile_slash_replicate (k : Nat) (l : List Char) :
    List.dropWhile (fun c => c = '/') (List.replicate k '/' ++ l) =
      List.dropWhile (fun c => c = '/') l := by
  induction k with
  | zero => rfl
  | succ k ih => simp [List.replicate_succ, List.dropWhile_cons, ih]

/-- `rstrip('/')` ignores any number of additional trailing slashes. -/
theorem rstripSlashes_append_slashes (u : String) (k : Nat) :
    rstripSlashes (u ++ (⟨List.replicate k '/'⟩ : String)) = rstripSlashes u := by
  obtain ⟨ud⟩ := u
  show rstripSlashes ⟨ud ++ List.replicate k '/'⟩ = rstripSlashes ⟨ud⟩
  simp only [rstripSlashes, List.reverse_append, List.reverse_replicate]
  rw [dropWhile_slash_replicate]

/-- One parameter binding of a task instance: the parameter's name, its
serialized value, and whether the parameter is significant
(`luigi.Parameter(significant=...)` in test/parameter_test.py). -/
structure ParamBinding where
  name : String
  value : String
  significant : Bool

/-- Byte-wise lexicographic order on char lists, modelling how Python
`sorted` compares strings. -/
def charsLe : List Char → List Char → Bool
  | [], _ => true
  | _ :: _, [] => false
  | a :: as, b :: bs =>
    if a.toNat < b.toNat then true
    else if b.toNat < a.toNat then false
    else charsLe as bs

/-- Lexicographic order on strings, modelling Python string comparison. -/
def strLe (a b : String) : Bool :=
  charsLe a.data b.data

/-- Insertion step of the by-name sort of parameter pairs. -/
def insertByName (x : String × String) :
    List (String × String) → List (String × String)
  | [] => [x]
  | y :: ys => if strLe x.1 y.1 then x :: y :: ys else y :: insertByName x ys

/-- Sorts parameter `(name, value)` pairs by name, modelling Python's
`sorted` over dict items (parameter names are unique, so the value never
acts as a tie-breaker). -/
def sortByName (l : List (String × String)) : List (String × String) :=
  l.foldr insertByName []

/-- The `(name, value)` pairs of the significant parameters only, in
declaration order. -/
def significantPairs (params : List ParamBinding) : List (String × String) :=
  (params.filter (fun p => p.significant)).map (fun p => (p.name, p.value))

/-- Renders one `name=value` piece of a task id. -/
def renderPair (x : String × String) : List Char :=
  x.1.data ++ '=' :: x.2.data

/-- Renders the comma-separated `name=value` list of a task id,
modelling `', '.join('%s=%s' % (k, v) for k, v in sorted(...))`. -/
def renderPairs : List (String × String) → List Char
  | [] => []
  | [x] => renderPair x
  | x :: y :: rest => renderPair x ++ ',' :: ' ' :: renderPairs (y :: rest)

/-- Modelled from the spec: the task id derivation (`luigi/task.py` is
not under src/) — "`id`: string, deterministically derived from
`(family, sorted significant-parameter name→serialized-value pairs)`",
with the concrete rendering `Family(name1=value1, name2=value2)` pinned
by `ParameterTest.test_insignificant_parameter`, which expects
`InsignificantParameterTask(bar=y)` for a task with significant `bar=y`
and insignificant `foo=x`. -/
def task_id (family : String) (params : List ParamBinding) : String :=
  ⟨family.data ++ '(' :: renderPairs (sortByName (significantPairs params)) ++ [')']⟩

/-- Everything before the distinguished piece when rendering
`A ++ x :: B`: each pair of `A` followed by a comma-space. -/
def renderPre : List (String × String) → List Char
  | [] => []
  | x :: rest => renderPair x ++ ',' :: ' ' :: renderPre rest

/-- Everything after the distinguished piece when rendering
`A ++ x :: B`: a comma-space and the rendering of `B`, or nothing. -/
def renderPost : List (String × String) → List Char
  | [] => []
  | y :: rest => ',' :: ' ' :: renderPairs (y :: rest)

/-- Decomposition of the rendered pair list around a distinguished
element: the surrounding text depends only on `A` and `B`. -/
theorem renderPairs_decomp (A : List (String × String))
    (x : String × String) (B : List (String × String)) :
    renderPairs (A ++ x :: B) = renderPre A ++ renderPair x ++ renderPost B := by
  induction A with
  | nil =>
    cases B with
    | nil => simp [renderPairs, renderPre, renderPost]
    | cons y rest => simp [renderPairs, renderPre, renderPost]
  | cons a A' ih =>
    cases hA : A' ++ x :: B with
    | nil => exact absurd hA (List.append_ne_nil_of_right_ne_nil A' (by simp))
    | cons z zs =>
      show renderPairs (a :: (A' ++ x :: B)) = _
      rw [hA]
      show renderPair a ++ ',' :: ' ' :: renderPairs (z :: zs) = _
      rw [← hA, ih]
      simp [renderPre]

/-- Whether an exception is one of the two types `URLLibFetcher.fetch`
catches and wraps. -/
def PyExc.isUrllibCaught : PyExc → Bool
  | .URLError _ => true
  | .socketTimeout _ => true
  | _ => false

/-- Counting fetch invocations in a first-fetch-then-alternation trace. -/
theorem numFetches_cons_cycle (u : String) (b : List (String × String))
    (t : ℚ) (k : Nat) :
    numFetches (Event.fetchCall u b t ::
      (List.replicate k [Event.sleep 30, Event.fetchCall u b t]).flatten) = k + 1 := by
  have h := numFetches_cycle u b t k
  simp only [numFetches] at h ⊢
  simp [List.countP_cons, Event.isFetch, h]

/-- Counting sleeps in a first-fetch-then-alternation trace. -/
theorem numSleeps_cons_cycle (u : String) (b : List (String × String))
    (t : ℚ) (k : Nat) :
    numSleeps (Event.fetchCall u b t ::
      (List.replicate k [Event.sleep 30, Event.fetchCall u b t]).flatten) = k := by
  have h := numSleeps_cycle u b t k
  simp only [numSleeps] at h ⊢
  simp [List.countP_cons, Event.isSleep, h]

/-- `_request` performs exactly the fetch invocations and sleeps of the
underlying `_fetch` call: decoding happens after the retry loop has
finished and never adds or removes attempts. -/
theorem request_trace (s : RemoteScheduler) (url : String) (d : JVal)
    (fetchFn : Fetcher) (le : Bool) (attempts : Nat) :
    (s._request url d fetchFn le attempts).1 =
      (s._fetch url [("data", json.dumps d)] fetchFn le attempts).1 := by
  cases hr : (s._fetch url [("data", json.dumps d)] fetchFn le attempts).2 with
  | error e => simp [RemoteScheduler._request, hr]
  | ok page =>
    cases hl : json.loads page with
    | error e => simp [RemoteScheduler._request, hr, hl]
    | ok j => simp [RemoteScheduler._request, hr, hl]

/-- An exception raised by `_fetch` propagates through `_request`
unchanged. -/
theorem request_error (s : RemoteScheduler) (url : String) (d : JVal)
    (fetchFn : Fetcher) (le : Bool) (attempts : Nat) (e : PyExc)
    (h : (s._fetch url [("data", json.dumps d)] fetchFn le attempts).2 = .error e) :
    (s._request url d fetchFn le attempts).2 = .error e := by
  simp [RemoteScheduler._request, h]

/-- When `_fetch` returns a page, `_request` returns exactly the result
of `json.loads(page)["response"]`. -/
theorem request_unwrap (s : RemoteScheduler) (url : String) (d : JVal)
    (fetchFn : Fetcher) (le : Bool) (attempts : Nat) (page : String)
    (h : (s._fetch url [("data", json.dumps d)] fetchFn le attempts).2 = .ok page) :
    (s._request url d fetchFn le attempts).2 =
      (json.loads page).bind (fun j => json.subscript j "response") := by
  cases hl : json.loads page with
  | error e => simp [RemoteScheduler._request, h, hl, Except.bind]
  | ok j => simp [RemoteScheduler._request, h, hl, Except.bind]

/-- Exhaustion of the retry budget against an always-failing transport,
with counts: exactly `attempts` fetch invocations, then a single
`RPCError`. -/
theorem fetch_allFail_count (s : RemoteScheduler) (suffix : String)
    (body : List (String × String)) (fetchFn : Fetcher) (le : Bool)
    (attempts : Nat) (efn : Nat → PyExc)
    (h : ∀ n, n < attempts →
      fetchFn (urljoin s._url suffix) body s._connect_timeout n =
        .error (.FetcherException (efn n))) :
    numFetches (s._fetch suffix body fetchFn le attempts).1 = attempts ∧
    ∃ sub, (s._fetch suffix body fetchFn le attempts).2 =
      .error (.RPCError attempts s._url sub) := by
  cases attempts with
  | zero => exact ⟨rfl, ⟨none, rfl⟩⟩
  | succ a =>
    rw [fetch_allFail s suffix body fetchFn le a efn h]
    exact ⟨numFetches_cons_cycle _ _ _ a, ⟨some (efn a), rfl⟩⟩

/-- Characterization of exceptions escaping the retry loop: anything
`_fetch`'s loop raises is either the `RPCError` of the exhausted
`while`-`else` clause, or an exception some fetch attempt raised that is
not a `FetcherException` (only `FetcherException` is caught). -/
theorem fetchLoop_error_shape (fetchFn : Fetcher) (surl u : String)
    (b : List (String × String)) (t : ℚ) (attempts : Nat) :
    ∀ remaining idx lastExc e',
      (fetchLoop fetchFn surl u b t attempts remaining idx lastExc).2 = .error e' →
      e'.isRPCError = true ∨
        (∃ n, fetchFn u b t n = .error e' ∧ e'.isFetcherException = false) := by
  intro remaining
  induction remaining with
  | zero =>
    intro idx lastExc e' he
    rw [fetchLoop_zero] at he
    injection he with he
    exact Or.inl (by rw [← he]; rfl)
  | succ r ih =>
    intro idx lastExc e' he
    match lastExc with
    | some e0 =>
      rw [fetchLoop_succ_some] at he
      rcases hfe : fetchFn u b t idx with e | page
      · rw [hfe] at he
        cases e
        case FetcherException orig => exact ih (idx + 1) (some orig) e' he
        all_goals
          injection he with he
          exact Or.inr ⟨idx, by rw [hfe, he], by rw [← he]; rfl⟩
      · rw [hfe] at he
        exact absurd he (by simp)
    | none =>
      rw [fetchLoop_succ_none] at he
      rcases hfe : fetchFn u b t idx with e | page
      · rw [hfe] at he
        cases e
        case FetcherException orig => exact ih (idx + 1) (some orig) e' he
        all_goals
          injection he with he
          exact Or.inr ⟨idx, by rw [hfe, he], by rw [← he]; rfl⟩
      · rw [hfe] at he
        exact absurd he (by simp)

/-- C1: against a transport failing on every attempt, `_fetch` performs
exactly `attempts` fetch invocations and then raises exactly one
coordination failure (`RPCError`); `_request`'s default of 3 attempts
raises after exactly 3 fetch invocations, and the 1-attempt calls `ping`
and `get_work` raise after exactly 1. -/
theorem C1_retry_bound (s : RemoteScheduler) (fetchFn : Fetcher)
    (efn : Nat → PyExc)
    (hfail : ∀ u b t n, fetchFn u b t n = .error (.FetcherException (efn n))) :
    (∀ suffix body le attempts,
       numFetches (s._fetch suffix body fetchFn le attempts).1 = attempts ∧
       ∃ sub, (s._fetch suffix body fetchFn le attempts).2 =
         .error (.RPCError attempts s._url sub)) ∧
    (∀ url d le,
       numFetches (s._request url d fetchFn le).1 = 3 ∧
       ∃ sub, (s._request url d fetchFn le).2 = .error (.RPCError 3 s._url sub)) ∧
    (∀ worker,
       numFetches (s.ping worker fetchFn).1 = 1 ∧
       ∃ sub, (s.ping worker fetchFn).2 = .error (.RPCError 1 s._url sub)) ∧
    (∀ worker host assistant,
       numFetches (s.get_work worker fetchFn host assistant).1 = 1 ∧
       ∃ sub, (s.get_work worker fetchFn host assistant).2 =
         .error (.RPCError 1 s._url sub)) := by
  refine ⟨?_, ?_, ?_, ?_⟩
  · intro suffix body le attempts
    exact fetch_allFail_count s suffix body fetchFn le attempts efn
      (fun n _ => hfail _ _ _ n)
  · intro url d le
    obtain ⟨hc, sub, hsub⟩ := fetch_allFail_count s url [("data", json.dumps d)]
      fetchFn le 3 efn (fun n _ => hfail _ _ _ n)
    exact ⟨by rw [request_trace]; exact hc,
           ⟨sub, request_error s url d fetchFn le 3 _ hsub⟩⟩
  · intro worker
    obtain ⟨hc, sub, hsub⟩ := fetch_allFail_count s "/api/ping"
      [("data", json.dumps (.obj [("worker", .str worker)]))]
      fetchFn true 1 efn (fun n _ => hfail _ _ _ n)
    constructor
    · show numFetches
        (s._request "/api/ping" (.obj [("worker", .str worker)]) fetchFn true 1).1 = 1
      rw [request_trace]; exact hc
    · refine ⟨sub, ?_⟩
      show ((s._request "/api/ping" (.obj [("worker", .str worker)]) fetchFn true 1).2.map
        fun _ => JVal.null) = _
      rw [request_error s "/api/ping" _ fetchFn true 1 _ hsub]
      rfl
  · intro worker host assistant
    obtain ⟨hc, sub, hsub⟩ := fetch_allFail_count s "/api/get_work"
      [("data", json.dumps (.obj [("worker", .str worker),
        ("host", match host with | some h => .str h | none => .null),
        ("assistant", .bool assistant)]))]
      fetchFn false 1 efn (fun n _ => hfail _ _ _ n)
    constructor
    · show numFetches (s._request "/api/get_work" _ fetchFn false 1).1 = 1
      rw [request_trace]; exact hc
    · exact ⟨sub, request_error s "/api/get_work" _ fetchFn false 1 _ hsub⟩

/-- C1 witness: a concrete always-failing transport drives the default
3-attempt `_fetch` to three invocations and the 1-attempt `ping` and
`get_work` to one, each raising `RPCError`. -/
theorem C1_retry_bound_witness :
    numFetches ((mkRemoteScheduler)._fetch "/api/graph" []
      (fun _ _ _ _ => .error (.FetcherException (.URLError "boom"))) true 3).1 = 3 ∧
    (∃ sub, ((mkRemoteScheduler)._request "/api/graph" (.obj [])
      (fun _ _ _ _ => .error (.FetcherException (.URLError "boom"))) true).2 =
        .error (.RPCError 3 (mkRemoteScheduler)._url sub)) ∧
    numFetches ((mkRemoteScheduler).ping "w"
      (fun _ _ _ _ => .error (.FetcherException (.URLError "boom")))).1 = 1 ∧
    (∃ sub, ((mkRemoteScheduler).get_work "w"
      (fun _ _ _ _ => .error (.FetcherException (.URLError "boom"))) none false).2 =
        .error (.RPCError 1 (mkRemoteScheduler)._url sub)) := by
  have h := C1_retry_bound (mkRemoteScheduler)
    (fun _ _ _ _ => .error (.FetcherException (.URLError "boom")))
    (fun _ => .URLError "boom") (fun u b t n => rfl)
  exact ⟨(h.1 "/api/graph" [] true 3).1, (h.2.1 "/api/graph" (.obj []) true).2,
         (h.2.2.1 "w").1, (h.2.2.2 "w" none false).2⟩

/-- C2: a successful fetch attempt short-circuits the retry loop
immediately; only `FetcherException` failures are retried, so any other
exception — including everything raised while handling a successfully
fetched response, such as decoding the payload — is never retried. -/
theorem C2_success_short_circuits (s : RemoteScheduler) (fetchFn : Fetcher)
    (efn : Nat → PyExc) :
    (∀ suffix body le a k page,
       k ≤ a →
       (∀ n, n < k →
         fetchFn (urljoin s._url suffix) body s._connect_timeout n =
           .error (.FetcherException (efn n))) →
       fetchFn (urljoin s._url suffix) body s._connect_timeout k = .ok page →
       (s._fetch suffix body fetchFn le (a + 1)).2 = .ok page ∧
       numFetches (s._fetch suffix body fetchFn le (a + 1)).1 = k + 1) ∧
    (∀ suffix body le a k e,
       k ≤ a →
       (∀ n, n < k →
         fetchFn (urljoin s._url suffix) body s._connect_timeout n =
           .error (.FetcherException (efn n))) →
       fetchFn (urljoin s._url suffix) body s._connect_timeout k = .error e →
       e.isFetcherException = false →
       (s._fetch suffix body fetchFn le (a + 1)).2 = .error e ∧
       numFetches (s._fetch suffix body fetchFn le (a + 1)).1 = k + 1) ∧
    (∀ url d le a page,
       fetchFn (urljoin s._url url) [("data", json.dumps d)] s._connect_timeout 0 =
         .ok page →
       numFetches (s._request url d fetchFn le (a + 1)).1 = 1 ∧
       (s._request url d fetchFn le (a + 1)).2 =
         (json.loads page).bind (fun j => json.subscript j "response")) := by
  refine ⟨?_, ?_, ?_⟩
  · intro suffix body le a k page hka h hok
    rw [fetch_success s suffix body fetchFn le a k page efn h hok hka]
    exact ⟨rfl, numFetches_cons_cycle _ _ _ k⟩
  · intro suffix body le a k e hka h herr hnf
    rw [fetch_break s suffix body fetchFn le a k e efn h herr hnf hka]
    exact ⟨rfl, numFetches_cons_cycle _ _ _ k⟩
  · intro url d le a page hok
    have hfe := fetch_success s url [("data", json.dumps d)] fetchFn le a 0 page efn
      (fun n hn => absurd hn (Nat.not_lt_zero n)) hok (Nat.zero_le a)
    constructor
    · rw [request_trace, hfe]
      exact numFetches_cons_cycle _ _ _ 0
    · exact request_unwrap s url d fetchFn le (a + 1) page (by rw [hfe])

/-- C2 witness: a transport that times out once and then succeeds makes
the 3-attempt `_fetch` return after exactly 2 invocations; a transport
whose second attempt raises a non-transport error stops after 2
invocations without wrapping; a garbage page fetched on the first try is
decoded (and fails to decode) without any further fetch. -/
theorem C2_success_short_circuits_witness :
    ((mkRemoteScheduler)._fetch "/api/graph" []
       (fun _ _ _ n => if n < 1 then .error (.FetcherException (.socketTimeout "t"))
                       else .ok "page") true 3).2 = .ok "page" ∧
    numFetches ((mkRemoteScheduler)._fetch "/api/graph" []
       (fun _ _ _ n => if n < 1 then .error (.FetcherException (.socketTimeout "t"))
                       else .ok "page") true 3).1 = 2 ∧
    ((mkRemoteScheduler)._fetch "/api/graph" []
       (fun _ _ _ n => if n < 1 then .error (.FetcherException (.socketTimeout "t"))
                       else .error (.otherError "bug")) true 3).2 =
      .error (.otherError "bug") ∧
    numFetches ((mkRemoteScheduler)._request "/api/graph" (.obj [])
       (fun _ _ _ _ => .ok "not json") true 3).1 = 1 := by
  have h := C2_success_short_circuits (mkRemoteScheduler)
    (fun _ _ _ n => if n < 1 then .error (.FetcherException (.socketTimeout "t"))
                    else .ok "page")
    (fun _ => .socketTimeout "t")
  have h2 := C2_success_short_circuits (mkRemoteScheduler)
    (fun _ _ _ n => if n < 1 then .error (.FetcherException (.socketTimeout "t"))
                    else .error (.otherError "bug"))
    (fun _ => .socketTimeout "t")
  have h3 := C2_success_short_circuits (mkRemoteScheduler)
    (fun _ _ _ _ => .ok "not json")
    (fun _ => .socketTimeout "t")
  refine ⟨(h.1 "/api/graph" [] true 2 1 "page" (by omega)
            (fun n hn => by
              have hn0 : n = 0 := by omega
              subst hn0; rfl) rfl).1,
          (h.1 "/api/graph" [] true 2 1 "page" (by omega)
            (fun n hn => by
              have hn0 : n = 0 := by omega
              subst hn0; rfl) rfl).2,
          (h2.2.1 "/api/graph" [] true 2 1 (.otherError "bug") (by omega)
            (fun n hn => by
              have hn0 : n = 0 := by omega
              subst hn0; rfl) rfl rfl).1,
          (h3.2.2 "/api/graph" (.obj []) true 2 "not json" rfl).1⟩

/-- Whether an exception is requests' `RequestException`, the type
`RequestsFetcher.fetch` catches and wraps. -/
def PyExc.isRequestException : PyExc → Bool
  | .RequestException _ => true
  | _ => false

/-- C3: transport-specific exception types are caught at the fetch
boundary and wrapped in `FetcherException`; when the retry budget is
exhausted the caller sees a single `RPCError` whose `sub_exception` is
the last underlying transport failure; and no matter what the transport
does, a `URLError`/`socket.timeout` (resp. `RequestException`) can never
escape `_fetch` as itself through its fetcher. -/
theorem C3_transport_wrapped (s : RemoteScheduler) :
    (∀ m, URLLibFetcher.fetch (.error (.URLError m)) =
       .error (.FetcherException (.URLError m))) ∧
    (∀ m, URLLibFetcher.fetch (.error (.socketTimeout m)) =
       .error (.FetcherException (.socketTimeout m))) ∧
    (∀ m, RequestsFetcher.fetch (.error (.RequestException m)) =
       .error (.FetcherException (.RequestException m))) ∧
    (∀ suffix body le a (raw : Nat → PyExc),
       (∀ n, (raw n).isUrllibCaught = true) →
       (s._fetch suffix body
          (fun _ _ _ n => URLLibFetcher.fetch (.error (raw n))) le (a + 1)).2 =
         .error (.RPCError (a + 1) s._url (some (raw a)))) ∧
    (∀ suffix body le a (raw : Nat → String),
       (s._fetch suffix body
          (fun _ _ _ n => RequestsFetcher.fetch (.error (.RequestException (raw n))))
          le (a + 1)).2 =
         .error (.RPCError (a + 1) s._url (some (.RequestException (raw a))))) ∧
    (∀ suffix body le attempts
       (fetchFnRaw : String → List (String × String) → ℚ → Nat → Except PyExc String)
       e',
       (s._fetch suffix body
          (fun u' b' t' n => URLLibFetcher.fetch (fetchFnRaw u' b' t' n))
          le attempts).2 = .error e' →
       e'.isUrllibCaught = false) ∧
    (∀ suffix body le attempts
       (fetchFnRaw : String → List (String × String) → ℚ → Nat → Except PyExc String)
       e',
       (s._fetch suffix body
          (fun u' b' t' n => RequestsFetcher.fetch (fetchFnRaw u' b' t' n))
          le attempts).2 = .error e' →
       e'.isRequestException = false) := by
  refine ⟨fun m => rfl, fun m => rfl, fun m => rfl, ?_, ?_, ?_, ?_⟩
  · intro suffix body le a raw hcaught
    have hw : ∀ n, n < a + 1 →
        (fun (_ : String) (_ : List (String × String)) (_ : ℚ) n =>
          URLLibFetcher.fetch (.error (raw n)))
          (urljoin s._url suffix) body s._connect_timeout n =
          .error (.FetcherException (raw n)) := by
      intro n _
      have hc := hcaught n
      cases hrn : raw n <;> rw [hrn] at hc <;>
        simp_all [PyExc.isUrllibCaught, URLLibFetcher.fetch]
    rw [fetch_allFail s suffix body _ le a raw hw]
  · intro suffix body le a raw
    have hw : ∀ n, n < a + 1 →
        (fun (_ : String) (_ : List (String × String)) (_ : ℚ) n =>
          RequestsFetcher.fetch (.error (.RequestException (raw n))))
          (urljoin s._url suffix) body s._connect_timeout n =
          .error (.FetcherException (.RequestException (raw n))) :=
      fun n _ => rfl
    rw [fetch_allFail s suffix body _ le a (fun n => .RequestException (raw n)) hw]
  · intro suffix body le attempts fetchFnRaw e' he
    have hshape := fetchLoop_error_shape
      (fun u' b' t' n => URLLibFetcher.fetch (fetchFnRaw u' b' t' n))
      s._url (urljoin s._url suffix) body s._connect_timeout attempts
      attempts 0 none e' he
    rcases hshape with hrpc | ⟨n, hn, hnf⟩
    · cases e' <;> simp_all [PyExc.isRPCError, PyExc.isUrllibCaught]
    · have hn' : URLLibFetcher.fetch
          (fetchFnRaw (urljoin s._url suffix) body s._connect_timeout n) =
            .error e' := hn
      rcases hfr : fetchFnRaw (urljoin s._url suffix) body s._connect_timeout n
        with eraw | sres
      · rw [hfr] at hn'
        cases eraw <;> (simp [URLLibFetcher.fetch] at hn'; rw [← hn']; rfl)
      · rw [hfr] at hn'
        simp [URLLibFetcher.fetch] at hn'
  · intro suffix body le attempts fetchFnRaw e' he
    have hshape := fetchLoop_error_shape
      (fun u' b' t' n => RequestsFetcher.fetch (fetchFnRaw u' b' t' n))
      s._url (urljoin s._url suffix) body s._connect_timeout attempts
      attempts 0 none e' he
    rcases hshape with hrpc | ⟨n, hn, hnf⟩
    · cases e' <;> simp_all [PyExc.isRPCError, PyExc.isRequestException]
    · have hn' : RequestsFetcher.fetch
          (fetchFnRaw (urljoin s._url suffix) body s._connect_timeout n) =
            .error e' := hn
      rcases hfr : fetchFnRaw (urljoin s._url suffix) body s._connect_timeout n
        with eraw | sres
      · rw [hfr] at hn'
        cases eraw <;> (simp [RequestsFetcher.fetch] at hn'; rw [← hn']; rfl)
      · rw [hfr] at hn'
        simp [RequestsFetcher.fetch] at hn'

/-- C3 witness: a transport whose every attempt raises `URLError "down"`
through the urllib fetcher drives a 2-attempt `_fetch` into a single
`RPCError` wrapping that last `URLError`, and the raised exception is
not itself a transport type. -/
theorem C3_transport_wrapped_witness :
    ((mkRemoteScheduler)._fetch "/api/ping" []
       (fun _ _ _ _ => URLLibFetcher.fetch (.error (.URLError "down"))) true 2).2 =
      .error (.RPCError 2 (mkRemoteScheduler)._url (some (.URLError "down"))) ∧
    PyExc.isUrllibCaught
      (.RPCError 2 (mkRemoteScheduler)._url (some (.URLError "down"))) = false := by
  have h := C3_transport_wrapped (mkRemoteScheduler)
  have h4 := h.2.2.2.1 "/api/ping" [] true 1 (fun _ => .URLError "down")
    (fun n => rfl)
  exact ⟨h4, h.2.2.2.2.2.1 "/api/ping" [] true 2
    (fun _ _ _ _ => .error (.URLError "down")) _ h4⟩

/-- C4: every fetch invocation a `_request` makes carries exactly the
envelope body `{data: json.dumps(d)}`, and when the transport succeeds
the caller receives exactly the value under the `"response"` key of the
JSON-parsed page. -/
theorem C4_envelope_unwrap (s : RemoteScheduler) (url : String) (d : JVal)
    (fetchFn : Fetcher) (le : Bool) (attempts : Nat) :
    (∀ u' b' t',
       Event.fetchCall u' b' t' ∈ (s._request url d fetchFn le attempts).1 →
       b' = [("data", json.dumps d)]) ∧
    (∀ page kvs r,
       (s._fetch url [("data", json.dumps d)] fetchFn le attempts).2 = .ok page →
       json.loads page = .ok (.obj kvs) →
       kvs.lookup "response" = some r →
       (s._request url d fetchFn le attempts).2 = .ok r) := by
  constructor
  · intro u' b' t' hmem
    rw [request_trace] at hmem
    have hev := fetchLoop_events fetchFn s._url (urljoin s._url url)
      [("data", json.dumps d)] s._connect_timeout attempts attempts 0 none
      (Event.fetchCall u' b' t') hmem
    rcases hev with h | h
    · exact absurd h (by simp)
    · cases h
      rfl
  · intro page kvs r hok hl hlook
    rw [request_unwrap s url d fetchFn le attempts page hok]
    simp [hl, Except.bind, json.subscript, hlook]

/-- C4 witness: with a transport that answers `{"response": 7}` on the
first try, `_request` sends the envelope body and returns the number 7. -/
theorem C4_envelope_unwrap_witness :
    (Event.fetchCall "http://localhost:8082/api/graph" [("data", json.dumps (.obj []))]
        (10 : ℚ) ∈
      ((mkRemoteScheduler)._request "/api/graph" (.obj [])
        (fun _ _ _ _ => .ok "\x7b\"response\": 7\x7d") true 3).1 →
      [("data", json.dumps (.obj []))] = [("data", json.dumps (.obj []))]) ∧
    ((mkRemoteScheduler)._request "/api/graph" (.obj [])
        (fun _ _ _ _ => .ok "\x7b\"response\": 7\x7d") true 3).2 = .ok (.num 7) := by
  have h := C4_envelope_unwrap (mkRemoteScheduler) "/api/graph" (.obj [])
    (fun _ _ _ _ => .ok "\x7b\"response\": 7\x7d") true 3
  exact ⟨fun hmem => h.1 _ _ _ hmem,
         h.2 "\x7b\"response\": 7\x7d" [("response", .num 7)] (.num 7) rfl rfl rfl⟩

/-- C5 counterexample: `ping`'s body has no `return` statement, so even
when the scheduler answers `{"response": "stop"}` the caller receives
`None`, not the unwrapped directive payload that `_request` produced. -/
theorem C5_counterexample :
    ((mkRemoteScheduler).ping "w"
        (fun _ _ _ _ => .ok "\x7b\"response\": \"stop\"\x7d")).2 = .ok JVal.null ∧
    ((mkRemoteScheduler)._request "/api/ping" (.obj [("worker", .str "w")])
        (fun _ _ _ _ => .ok "\x7b\"response\": \"stop\"\x7d") true 1).2 =
      .ok (.str "stop") ∧
    (Except.ok JVal.null ≠ (Except.ok (JVal.str "stop") : Except PyExc JVal)) := by
  refine ⟨rfl, rfl, fun h => ?_⟩
  injection h with h'
  exact JVal.noConfusion h'

/-- C5 (amended): `ping` performs the single-attempt request and
discards the unwrapped payload — it returns `None` whenever the request
succeeds, propagates the request's exception otherwise, and performs
exactly the request's fetch invocations. -/
theorem C5_ping_discards_payload (s : RemoteScheduler) (worker : String)
    (fetchFn : Fetcher) :
    (∀ r, (s._request "/api/ping" (.obj [("worker", .str worker)]) fetchFn true 1).2 =
        .ok r →
      (s.ping worker fetchFn).2 = .ok JVal.null) ∧
    (∀ e, (s._request "/api/ping" (.obj [("worker", .str worker)]) fetchFn true 1).2 =
        .error e →
      (s.ping worker fetchFn).2 = .error e) ∧
    (s.ping worker fetchFn).1 =
      (s._request "/api/ping" (.obj [("worker", .str worker)]) fetchFn true 1).1 := by
  refine ⟨fun r h => ?_, fun e h => ?_, rfl⟩
  · show ((s._request "/api/ping" (.obj [("worker", .str worker)]) fetchFn true 1).2.map
      fun _ => JVal.null) = _
    rw [h]; rfl
  · show ((s._request "/api/ping" (.obj [("worker", .str worker)]) fetchFn true 1).2.map
      fun _ => JVal.null) = _
    rw [h]; rfl

/-- C5 amended-claim witness: the concrete `{"response": "stop"}`
exchange drives `ping` to return `None`. -/
theorem C5_ping_discards_payload_witness :
    ((mkRemoteScheduler).ping "w"
      (fun _ _ _ _ => .ok "\x7b\"response\": \"stop\"\x7d")).2 = .ok JVal.null :=
  (C5_ping_discards_payload (mkRemoteScheduler) "w"
      (fun _ _ _ _ => .ok "\x7b\"response\": \"stop\"\x7d")).1
    (.str "stop") rfl

/-- C6: the wait is the single fixed `time.sleep(30)` and happens only
between a failed attempt and the next one — never before the first
attempt — so when every attempt fails the trace is one fetch followed by
`attempts - 1` sleep-then-fetch rounds, i.e. exactly `attempts - 1`
waits before `RPCError` is raised. -/
theorem C6_fixed_wait_between_attempts (s : RemoteScheduler)
    (fetchFn : Fetcher) (efn : Nat → PyExc) :
    (∀ suffix body le a,
       (∀ n, n < a + 1 →
         fetchFn (urljoin s._url suffix) body s._connect_timeout n =
           .error (.FetcherException (efn n))) →
       (s._fetch suffix body fetchFn le (a + 1)).1 =
         Event.fetchCall (urljoin s._url suffix) body s._connect_timeout ::
           (List.replicate a
              [Event.sleep 30,
               Event.fetchCall (urljoin s._url suffix) body s._connect_timeout]).flatten ∧
       numSleeps (s._fetch suffix body fetchFn le (a + 1)).1 = (a + 1) - 1) ∧
    (∀ suffix body le a, ∃ tail,
       (s._fetch suffix body fetchFn le (a + 1)).1 =
         Event.fetchCall (urljoin s._url suffix) body s._connect_timeout :: tail) ∧
    (∀ suffix body le attempts n,
       Event.sleep n ∈ (s._fetch suffix body fetchFn le attempts).1 → n = 30) := by
  refine ⟨?_, ?_, ?_⟩
  · intro suffix body le a h
    rw [fetch_allFail s suffix body fetchFn le a efn h]
    exact ⟨rfl, by simpa using numSleeps_cons_cycle _ _ _ a⟩
  · intro suffix body le a
    exact fetchLoop_head fetchFn s._url (urljoin s._url suffix) body
      s._connect_timeout (a + 1) a 0
  · intro suffix body le attempts n hmem
    have hev := fetchLoop_events fetchFn s._url (urljoin s._url suffix) body
      s._connect_timeout attempts attempts 0 none (Event.sleep n) hmem
    rcases hev with h | h
    · injection h
    · exact absurd h (by simp)

/-- C6 witness: a concrete always-failing transport over 3 attempts
yields the exact fetch/sleep/fetch/sleep/fetch alternation with two 30
second waits. -/
theorem C6_fixed_wait_between_attempts_witness :
    ((mkRemoteScheduler)._fetch "/api/graph" []
       (fun _ _ _ _ => .error (.FetcherException (.URLError "boom"))) true 3).1 =
      Event.fetchCall "http://localhost:8082/api/graph" [] 10 ::
        (List.replicate 2
           [Event.sleep 30,
            Event.fetchCall "http://localhost:8082/api/graph" [] 10]).flatten ∧
    numSleeps ((mkRemoteScheduler)._fetch "/api/graph" []
       (fun _ _ _ _ => .error (.FetcherException (.URLError "boom"))) true 3).1 = 2 := by
  have h := (C6_fixed_wait_between_attempts (mkRemoteScheduler)
    (fun _ _ _ _ => .error (.FetcherException (.URLError "boom")))
    (fun _ => .URLError "boom")).1 "/api/graph" [] true 2 (fun n hn => rfl)
  exact ⟨h.1, h.2⟩

/-- C8: the connect timeout resolves to the explicit constructor
argument when given, else to the externally configured value, else to
the 10 second default; and every fetch invocation `_fetch` makes passes
exactly that resolved timeout. -/
theorem C8_connect_timeout :
    (∀ url cfg, (mkRemoteScheduler url none cfg)._connect_timeout =
      configGetfloat cfg 10) ∧
    (∀ url, (mkRemoteScheduler url none none)._connect_timeout = 10) ∧
    (∀ url cfg t, (mkRemoteScheduler url (some t) cfg)._connect_timeout = t) ∧
    (∀ (s : RemoteScheduler) suffix body fetchFn le attempts u' b' t',
       Event.fetchCall u' b' t' ∈ (s._fetch suffix body fetchFn le attempts).1 →
       t' = s._connect_timeout) := by
  refine ⟨fun url cfg => rfl, fun url => rfl, fun url cfg t => rfl, ?_⟩
  intro s suffix body fetchFn le attempts u' b' t' hmem
  have hev := fetchLoop_events fetchFn s._url (urljoin s._url suffix) body
    s._connect_timeout attempts attempts 0 none (Event.fetchCall u' b' t') hmem
  rcases hev with h | h
  · exact absurd h (by simp)
  · cases h
    rfl

/-- C8 witness: the defaulted scheduler resolves to the 10 second
timeout, an explicit one wins, and the one fetch of a first-try success
is invoked with the resolved timeout. -/
theorem C8_connect_timeout_witness :
    (mkRemoteScheduler "http://localhost:8082/" none none)._connect_timeout = 10 ∧
    (mkRemoteScheduler "http://localhost:8082/" none (some 42))._connect_timeout = 42 ∧
    (mkRemoteScheduler "http://localhost:8082/" (some 5) (some 42))._connect_timeout = 5 ∧
    (10 : ℚ) =
      (mkRemoteScheduler "http://localhost:8082/" none none)._connect_timeout := by
  have h := C8_connect_timeout
  refine ⟨h.1 "http://localhost:8082/" none, by
      simpa using h.1 "http://localhost:8082/" (some 42),
    h.2.2.1 "http://localhost:8082/" (some 42) 5, ?_⟩
  exact h.2.2.2 (mkRemoteScheduler "http://localhost:8082/" none none)
    "/api/ping" [] (fun _ _ _ _ => .ok "x") true 1
    "http://localhost:8082/api/ping" [] 10
    (by rw [show ((mkRemoteScheduler "http://localhost:8082/" none none)._fetch
        "/api/ping" [] (fun _ _ _ _ => .ok "x") true 1).1 =
          [Event.fetchCall "http://localhost:8082/api/ping" [] 10] from rfl]
        exact List.mem_singleton.mpr rfl)

/-- C9: trailing slashes on the constructor's base url are irrelevant —
the constructor strips them, so the stored url, the full request url and
the entire observable behavior of `_fetch` agree between a base url and
the same url with any number of trailing `'/'` appended. -/
theorem C9_trailing_slashes (u : String) (k : Nat) (ct cfg : Option ℚ)
    (suffix : String) :
    (mkRemoteScheduler (u ++ (⟨List.replicate k '/'⟩ : String)) ct cfg)._url =
      (mkRemoteScheduler u ct cfg)._url ∧
    urljoin (mkRemoteScheduler (u ++ (⟨List.replicate k '/'⟩ : String)) ct cfg)._url
        suffix =
      urljoin (mkRemoteScheduler u ct cfg)._url suffix ∧
    ∀ body fetchFn le attempts,
      (mkRemoteScheduler (u ++ (⟨List.replicate k '/'⟩ : String)) ct cfg)._fetch
          suffix body fetchFn le attempts =
        (mkRemoteScheduler u ct cfg)._fetch suffix body fetchFn le attempts := by
  have hu : mkRemoteScheduler (u ++ (⟨List.replicate k '/'⟩ : String)) ct cfg =
      mkRemoteScheduler u ct cfg := by
    simp [mkRemoteScheduler, rstripSlashes_append_slashes]
  exact ⟨by rw [hu], by rw [hu], fun body fetchFn le attempts => by rw [hu]⟩

/-- C10: the Unix-socket guard in `RemoteScheduler.__init__` asserts a
parenthesized `(condition, message)` tuple, which is a non-empty tuple
and hence always truthy, so the assert never fails — even for an
`http+unix://` url without Unix-socket support, where the intended
condition is false. -/
theorem C10_assert_always_passes :
    (∀ url hasUnixSockets, (initAssertArg url hasUnixSockets).truthy = true) ∧
    initIntendedCond "http+unix://scheduler.sock" false = false ∧
    (initAssertArg "http+unix://scheduler.sock" false).truthy = true := by
  refine ⟨fun url hasUnixSockets => rfl, ?_, rfl⟩
  rfl

/-- C7: the task id is a deterministic function of the family and the
significant parameter values only — computing it twice agrees, varying
only insignificant parameters leaves it unchanged, varying one
significant parameter's value changes it — and it matches the format the
parameter test pins down. -/
theorem C7_task_identity (f : String) (p q : List ParamBinding) :
    (task_id f p = task_id f p) ∧
    (significantPairs p = significantPairs q → task_id f p = task_id f q) ∧
    (∀ A B n v v',
       sortByName (significantPairs p) = A ++ (n, v) :: B →
       sortByName (significantPairs q) = A ++ (n, v') :: B →
       v ≠ v' →
       task_id f p ≠ task_id f q) ∧
    (task_id "InsignificantParameterTask"
       [⟨"foo", "x", false⟩, ⟨"bar", "y", true⟩] =
         "InsignificantParameterTask(bar=y)" ∧
     task_id "InsignificantParameterTask"
       [⟨"foo", "u", false⟩, ⟨"bar", "z", true⟩] =
         "InsignificantParameterTask(bar=z)") := by
  refine ⟨rfl, fun h => by simp [task_id, h], ?_, rfl, rfl⟩
  intro A B n v v' hp hq hne h
  apply hne
  simp only [task_id, hp, hq, renderPairs_decomp] at h
  have h2 : f.data ++ '(' :: (renderPre A ++ renderPair (n, v) ++ renderPost B) ++ [')'] =
      f.data ++ '(' :: (renderPre A ++ renderPair (n, v') ++ renderPost B) ++ [')'] :=
    congrArg String.data h
  have h3 := List.append_cancel_right h2
  have h4 := List.append_cancel_left h3
  injection h4 with h41 h5
  have h6 := List.append_cancel_left (List.append_cancel_right h5)
  have h7 := List.append_cancel_left
    (h6 : n.data ++ '=' :: v.data = n.data ++ '=' :: v'.data)
  injection h7 with h71 h8
  obtain ⟨vd⟩ := v
  obtain ⟨vd'⟩ := v'
  exact congrArg String.mk h8

/-- C7 witness: concrete instances — changing only the insignificant
parameter keeps the id, changing a significant value changes it. -/
theorem C7_task_identity_witness :
    task_id "T" [⟨"foo", "x", false⟩, ⟨"bar", "y", true⟩] =
      task_id "T" [⟨"foo", "u", false⟩, ⟨"bar", "y", true⟩] ∧
    task_id "T" [⟨"a", "1", true⟩] ≠ task_id "T" [⟨"a", "2", true⟩] := by
  have h := C7_task_identity "T" [⟨"foo", "x", false⟩, ⟨"bar", "y", true⟩]
    [⟨"foo", "u", false⟩, ⟨"bar", "y", true⟩]
  have h2 := C7_task_identity "T" [⟨"a", "1", true⟩] [⟨"a", "2", true⟩]
  exact ⟨h.2.1 rfl,
         h2.2.2.1 [] [] "a" "1" "2" rfl rfl (by decide)⟩
